import Mathlib

/-!
Shallow embedding of the platform-coordination-service registry core:
the SQLAlchemy data model (`src/models/service.py`), the repository
operations (`src/repositories/service.py`) and the HTTP route logic
(`src/api/routes/services.py`), with theorems checking the spec's claims.

Modelling conventions:
- timestamps are `Nat` values passed explicitly as `now` (the code calls
  `datetime.now(UTC)` at each mutation);
- UUIDs are `Nat` ids drawn from a `next_id` counter (the code uses
  `uuid4`, fresh per insert);
- each repository operation returns, besides its result, the list of
  store transactions it commits; a transaction is the list of row writes
  flushed by one `session.commit()` call.  Applying the transactions to
  the store gives the post-state; an operation that raises after
  `session.rollback()` commits nothing.
-/

namespace PlatformCoordination

/-- Status enumeration from `ServiceStatus` in `src/models/service.py`. -/
inductive ServiceStatus
  | healthy
  | degraded
  | unhealthy
  | unknown
  | starting
  | stopping
  | stopped
deriving DecidableEq, Repr

/-- String value of a status, as in the `str, enum.Enum` Python class. -/
def ServiceStatus.value : ServiceStatus → String
  | .healthy => "healthy"
  | .degraded => "degraded"
  | .unhealthy => "unhealthy"
  | .unknown => "unknown"
  | .starting => "starting"
  | .stopping => "stopping"
  | .stopped => "stopped"

/-- Type enumeration from `ServiceType` in `src/models/service.py`. -/
inductive ServiceType
  | api
  | worker
  | scheduler
  | gateway
  | cache
  | database
  | message_broker
  | monitoring
deriving DecidableEq, Repr

/-- Structured metadata blob (version, environment, region, tags,
capabilities), as serialized into the `service_metadata` JSON column. -/
structure ServiceMetadata where
  version : String
  environment : String
  region : Option String
  tags : List (String × String)
  capabilities : List String
deriving DecidableEq, Repr

/-- Row of the `services` table (`Service` in `src/models/service.py`).
`service_metadata` is `none` when the stored JSON dict is empty. -/
structure Service where
  id : Nat
  name : String
  type : ServiceType
  host : String
  port : Nat
  status : ServiceStatus
  health_check_endpoint : Option String
  health_check_failures : Nat
  last_health_check_at : Option Nat
  service_metadata : Option ServiceMetadata
  registered_at : Nat
  last_seen_at : Nat
  updated_at : Nat
  version : Nat
deriving DecidableEq, Repr

/-- Row of the `service_events` table (`ServiceEvent` in
`src/models/service.py`); `event_data` keeps the JSON payload as
key/value strings. -/
structure ServiceEvent where
  service_id : Nat
  event_type : String
  event_data : List (String × String)
deriving DecidableEq, Repr

/-- The persistent store: the two tables plus the id generator. -/
structure Store where
  services : List Service
  events : List ServiceEvent
  next_id : Nat
deriving DecidableEq, Repr

/-- One row write flushed inside a store transaction. -/
inductive Write
  | insertService (s : Service)
  | updateService (id : Nat) (s : Service)
  | deleteService (id : Nat)
  | insertEvent (e : ServiceEvent)
deriving DecidableEq, Repr

/-- A transaction: the writes flushed by one `session.commit()`. -/
abbrev Txn := List Write

/-- Apply one row write; deleting a service cascade-deletes its events
(`ondelete="CASCADE"` on `service_events.service_id`). -/
def Store.applyWrite (st : Store) : Write → Store
  | .insertService s =>
      { st with services := st.services ++ [s], next_id := st.next_id + 1 }
  | .updateService id s =>
      { st with services := st.services.map (fun t => if t.id = id then s else t) }
  | .deleteService id =>
      { st with services := st.services.filter (fun t => t.id ≠ id),
                events := st.events.filter (fun e => e.service_id ≠ id) }
  | .insertEvent e =>
      { st with events := st.events ++ [e] }

/-- Apply a whole transaction in flush order. -/
def Store.applyTxn (st : Store) (t : Txn) : Store :=
  List.foldl Store.applyWrite st t

/-- Apply the transactions an operation committed, in commit order. -/
def Store.applyTxns (st : Store) (ts : List Txn) : Store :=
  List.foldl Store.applyTxn st ts

/-- Errors raised by the repository; `conflict` is `ConflictError` from
`src/core/exceptions.py`. -/
inductive RepoError
  | conflict
deriving DecidableEq, Repr

/-- Does this service row carry the given (name, host, port) triple? -/
def Service.hasEndpoint (s : Service) (name host : String) (port : Nat) : Bool :=
  s.name = name ∧ s.host = host ∧ s.port = port

/-- `ServiceRepository.get` (without the row lock, which is invisible in
this sequential model): first row with the given id. -/
def Store.getService (st : Store) (id : Nat) : Option Service :=
  st.services.find? (fun s => s.id = id)

/-- `ServiceRepository.get_by_name_host_port`: lookup by the unique
endpoint triple. -/
def Store.get_by_name_host_port (st : Store) (name host : String) (port : Nat) :
    Option Service :=
  st.services.find? (fun s => s.hasEndpoint name host port)

/-- Keyword arguments accepted by `ServiceRepository.create` as passed by
`register_service` in `src/api/routes/services.py`. -/
structure CreateArgs where
  name : String
  type : ServiceType
  host : String
  port : Nat
  status : ServiceStatus
  service_metadata : Option ServiceMetadata
  health_check_endpoint : Option String
deriving DecidableEq, Repr

/-- `ServiceRepository.create`: insert a new row; the store's uniqueness
constraint on (name, host, port) raises `IntegrityError` at commit, which
becomes `ConflictError` after rollback.  On success the service insert is
committed first and the `service_registered` event is committed in a
second, separate transaction (the code comments: a separate transaction
to avoid flush issues); an event failure is swallowed. -/
def Store.create (st : Store) (a : CreateArgs) (now : Nat) :
    Except RepoError (Service × List Txn) :=
  if st.services.any (fun s => s.hasEndpoint a.name a.host a.port) then
    .error .conflict
  else
    let svc : Service :=
      { id := st.next_id
        name := a.name
        type := a.type
        host := a.host
        port := a.port
        status := a.status
        health_check_endpoint := a.health_check_endpoint
        health_check_failures := 0
        last_health_check_at := none
        service_metadata := a.service_metadata
        registered_at := now
        last_seen_at := now
        updated_at := now
        version := 1 }
    let ev : ServiceEvent :=
      { service_id := svc.id
        event_type := "service_registered"
        event_data :=
          [("service_name", a.name), ("host", a.host), ("port", toString a.port)] }
    .ok (svc, [[Write.insertService svc], [Write.insertEvent ev]])

/-- `create` together with its store effect: commits apply in order; a
`ConflictError` rolls back, leaving the store unchanged. -/
def Store.createRun (st : Store) (a : CreateArgs) (now : Nat) :
    Except RepoError Service × Store :=
  match st.create a now with
  | .ok (svc, ts) => (.ok svc, st.applyTxns ts)
  | .error e => (.error e, st)

/-- Keyword arguments passed to `ServiceRepository.update`; `version` is
popped as the `expected_version` of the optimistic lock. -/
structure UpdateFields where
  type : Option ServiceType := none
  service_metadata : Option (Option ServiceMetadata) := none
  health_check_endpoint : Option (Option String) := none
  status : Option ServiceStatus := none
  version : Option Nat := none
deriving DecidableEq, Repr

/-- The `setattr` loop of `ServiceRepository.update`: overwrite exactly
the supplied fields. -/
def Service.applyFields (s : Service) (f : UpdateFields) : Service :=
  let s := match f.type with
    | some t => { s with type := t }
    | none => s
  let s := match f.service_metadata with
    | some m => { s with service_metadata := m }
    | none => s
  let s := match f.health_check_endpoint with
    | some e => { s with health_check_endpoint := e }
    | none => s
  match f.status with
  | some st => { s with status := st }
  | none => s

/-- `ServiceRepository.update`: optimistic-locking partial update.
Returns `none` when the id does not exist; raises `ConflictError` before
mutating anything when `expected_version` mismatches; otherwise applies
the fields, refreshes `last_seen_at`, bumps `version` by one (the ORM's
`onupdate` refreshes `updated_at`), and adds a `status_change` event in
the same transaction when the supplied status differs from the old. -/
def Store.update (st : Store) (id : Nat) (f : UpdateFields) (now : Nat) :
    Except RepoError (Option (Service × List Txn)) :=
  match st.getService id with
  | none => .ok none
  | some service =>
    if f.version.any (fun expected_version => service.version != expected_version) then
      .error .conflict
    else
      let old_status := service.status
      let s1 := service.applyFields f
      let s2 := { s1 with last_seen_at := now, updated_at := now,
                          version := s1.version + 1 }
      let eventWrites : List Write :=
        match f.status with
        | some new_status =>
            if old_status ≠ new_status then
              [Write.insertEvent
                { service_id := service.id
                  event_type := "status_change"
                  event_data := [("old_status", old_status.value),
                                 ("new_status", new_status.value)] }]
            else []
        | none => []
      .ok (some (s2, [Write.updateService service.id s2 :: eventWrites]))

/-- `update` together with its store effect. -/
def Store.updateRun (st : Store) (id : Nat) (f : UpdateFields) (now : Nat) :
    Except RepoError (Option Service) × Store :=
  match st.update id f now with
  | .ok (some (svc, ts)) => (.ok (some svc), st.applyTxns ts)
  | .ok none => (.ok none, st)
  | .error e => (.error e, st)

/-- `ServiceRepository.delete`: add a `service_unregistered` event and
delete the row in one transaction (the cascade then removes the events,
the fresh one included). -/
def Store.delete (st : Store) (id : Nat) : Bool × List Txn :=
  match st.getService id with
  | none => (false, [])
  | some service =>
    let ev : ServiceEvent :=
      { service_id := service.id
        event_type := "service_unregistered"
        event_data := [("service_name", service.name)] }
    (true, [[Write.insertEvent ev, Write.deleteService service.id]])

/-- `delete` together with its store effect. -/
def Store.deleteRun (st : Store) (id : Nat) : Bool × Store :=
  let r := st.delete id
  (r.1, st.applyTxns r.2)

/-- `ServiceRepository.update_health_status`: the health state machine.
A healthy signal restores `healthy` and zeroes the failure counter; an
unhealthy signal increments the counter and condemns to `unhealthy` at
three failures, `degraded` below.  Every signal refreshes
`last_health_check_at`, `last_seen_at` and bumps `version`; a status
change adds a `status_change` event in the same transaction. -/
def Store.update_health_status (st : Store) (id : Nat) (healthy : Bool)
    (check_time : Option Nat) (now : Nat) : Option (Service × List Txn) :=
  match st.getService id with
  | none => none
  | some service =>
    let old_status := service.status
    let s1 :=
      if healthy then
        { service with status := ServiceStatus.healthy, health_check_failures := 0 }
      else
        let fails := service.health_check_failures + 1
        { service with
            health_check_failures := fails
            status := if fails ≥ 3 then ServiceStatus.unhealthy
                      else ServiceStatus.degraded }
    let s2 := { s1 with last_health_check_at := some (check_time.getD now),
                        last_seen_at := now, updated_at := now,
                        version := s1.version + 1 }
    let eventWrites : List Write :=
      if old_status ≠ s2.status then
        [Write.insertEvent
          { service_id := service.id
            event_type := "status_change"
            event_data := [("old_status", old_status.value),
                           ("new_status", s2.status.value)] }]
      else []
    some (s2, [Write.updateService service.id s2 :: eventWrites])

/-- `update_health_status` together with its store effect. -/
def Store.healthRun (st : Store) (id : Nat) (healthy : Bool) (now : Nat) :
    Option Service × Store :=
  match st.update_health_status id healthy none now with
  | some (svc, ts) => (some svc, st.applyTxns ts)
  | none => (none, st)

/-- Filters accepted by `ServiceRepository.list` (the `include_events`
flag only eager-loads rows and is dropped here). -/
structure ListFilters where
  type : Option ServiceType := none
  status : Option ServiceStatus := none
  tag_key : Option String := none
  tag_value : Option String := none
deriving DecidableEq, Repr

/-- Python truthiness of an optional string, as tested by
`if tag_key and tag_value:` — `None` and the empty string are falsy. -/
def truthyStr : Option String → Bool
  | none => false
  | some s => !(s == "")

/-- The tag predicate `service_metadata->'tags'->>tag_key = tag_value`:
an empty metadata dict has no tags, a missing key yields SQL NULL and
never compares equal. -/
def tagMatches (s : Service) (k v : String) : Bool :=
  match s.service_metadata with
  | none => false
  | some m => m.tags.lookup k == some v

/-- `ServiceRepository.list`: apply the type, status and single-tag
filters (the tag pair only when both parts are truthy) and order by name. -/
def Store.list (st : Store) (f : ListFilters) : List Service :=
  let l0 : List Service := st.services
  let l1 : List Service := match f.type with
    | some t => l0.filter (fun s => s.type == t)
    | none => l0
  let l2 : List Service := match f.status with
    | some stat => l1.filter (fun s => s.status == stat)
    | none => l1
  let l3 : List Service :=
    if truthyStr f.tag_key && truthyStr f.tag_value then
      l2.filter (fun s => tagMatches s (f.tag_key.getD "") (f.tag_value.getD ""))
    else l2
  l3.mergeSort (fun a b => decide (a.name ≤ b.name))

/-- `ServiceRepository.find_by_name`: match on name, then either the
explicit status filter or (by default) exclude unhealthy rows; order by
`last_seen_at` descending. -/
def Store.find_by_name (st : Store) (name : String) (status : Option ServiceStatus)
    (exclude_unhealthy : Bool) : List Service :=
  let l0 : List Service := st.services.filter (fun s => s.name == name)
  let l1 : List Service := match status with
    | some stat => l0.filter (fun s => s.status == stat)
    | none =>
      if exclude_unhealthy then
        l0.filter (fun s => s.status != ServiceStatus.unhealthy)
      else l0
  l1.mergeSort (fun a b => decide (b.last_seen_at ≤ a.last_seen_at))

/-- Errors surfaced by the HTTP routes in `src/api/routes/services.py`,
by status code. -/
inductive RouteError
  | badRequest
  | conflict409
  | serverError
deriving DecidableEq, Repr

/-- Split a character list at the first `=`, keeping the rest intact. -/
def splitCharsOnce : List Char → Option (List Char × List Char)
  | [] => none
  | c :: cs =>
    if c = '=' then some ([], cs)
    else match splitCharsOnce cs with
      | some (k, v) => some (c :: k, v)
      | none => none

/-- The `tag.split("=", 1)` of `list_services`: split at the first `=`;
no `=` at all raises `ValueError`, mapped to a 400. -/
def splitTagOnce (t : String) : Option (String × String) :=
  match splitCharsOnce t.data with
  | some (k, v) => some (String.mk k, String.mk v)
  | none => none

/-- Tag-filter parsing in the `list_services` route: an absent or empty
`tag` query parameter yields no filter at all. -/
def parseTagFilter (tag : Option String) :
    Except RouteError (Option String × Option String) :=
  match tag with
  | none => .ok (none, none)
  | some t =>
    if t == "" then .ok (none, none)
    else
      match splitTagOnce t with
      | some (k, v) => .ok (some k, some v)
      | none => .error .badRequest

/-- The `list_services` route: parse the tag filter, then query. -/
def list_services (st : Store) (type : Option ServiceType)
    (status : Option ServiceStatus) (tag : Option String) :
    Except RouteError (List Service) :=
  match parseTagFilter tag with
  | .error e => .error e
  | .ok (tag_key, tag_value) =>
      .ok (st.list { type := type, status := status,
                     tag_key := tag_key, tag_value := tag_value })

/-- The `discover_services` route: `find_by_name` with the explicit
minimum status (defaulting to healthy at the HTTP layer); an empty result
is returned as an empty list, never an error. -/
def discover_services (st : Store) (service_name : String)
    (status : ServiceStatus) : List Service :=
  let services := st.find_by_name service_name (some status) true
  if services.isEmpty then [] else services

/-- Request body of the register route (`ServiceRegistration`); `none`
metadata is serialized as the empty dict. -/
structure ServiceRegistration where
  name : String
  type : ServiceType
  host : String
  port : Nat
  metadata : Option ServiceMetadata
  health_check_endpoint : Option String
deriving DecidableEq, Repr

/-- The keyword arguments `register_service` passes to `repo.update` on
the re-registration path: replace type, metadata and health-check
endpoint, reset status to unknown, no `expected_version`. -/
def registrationUpdateFields (reg : ServiceRegistration) : UpdateFields :=
  { type := some reg.type
    service_metadata := some reg.metadata
    health_check_endpoint := some reg.health_check_endpoint
    status := some ServiceStatus.unknown
    version := none }

/-- The keyword arguments `register_service` passes to `repo.create`. -/
def registrationCreateArgs (reg : ServiceRegistration) : CreateArgs :=
  { name := reg.name
    type := reg.type
    host := reg.host
    port := reg.port
    status := ServiceStatus.unknown
    service_metadata := reg.metadata
    health_check_endpoint := reg.health_check_endpoint }

/-- The `register_service` route, sequential semantics (no concurrent
writer): look up by coordinates; if found, update in place; otherwise
create, recovering from a create conflict by re-querying and updating. -/
def register_service (st : Store) (reg : ServiceRegistration) (now : Nat) :
    Except RouteError (Service × Store) :=
  match st.get_by_name_host_port reg.name reg.host reg.port with
  | some existing =>
    match st.updateRun existing.id (registrationUpdateFields reg) now with
    | (.ok (some updated), st1) => .ok (updated, st1)
    | (.ok none, _) => .error .serverError
    | (.error _, _) => .error .conflict409
  | none =>
    match st.createRun (registrationCreateArgs reg) now with
    | (.ok svc, st1) => .ok (svc, st1)
    | (.error _, _) =>
      match st.get_by_name_host_port reg.name reg.host reg.port with
      | some existing =>
        match st.updateRun existing.id (registrationUpdateFields reg) now with
        | (.ok (some updated), st1) => .ok (updated, st1)
        | (.ok none, _) => .error .conflict409
        | (.error _, _) => .error .conflict409
      | none => .error .conflict409

/-- The `register_service` route under a concurrent writer: `env1` is
the store interference between the coordinate lookup and the create
(both are separate awaited store calls), `env2` the interference between
the create failure and the recovery re-query.  With `env1 = env2 = id`
this is the sequential route. -/
def register_service_race (st : Store) (reg : ServiceRegistration)
    (env1 env2 : Store → Store) (now : Nat) :
    Except RouteError (Service × Store) :=
  match st.get_by_name_host_port reg.name reg.host reg.port with
  | some existing =>
    match (env1 st).updateRun existing.id (registrationUpdateFields reg) now with
    | (.ok (some updated), st1) => .ok (updated, st1)
    | (.ok none, _) => .error .serverError
    | (.error _, _) => .error .conflict409
  | none =>
    match (env1 st).createRun (registrationCreateArgs reg) now with
    | (.ok svc, st1) => .ok (svc, st1)
    | (.error _, _) =>
      let st2 := env2 (env1 st)
      match st2.get_by_name_host_port reg.name reg.host reg.port with
      | some existing =>
        match st2.updateRun existing.id (registrationUpdateFields reg) now with
        | (.ok (some updated), st3) => .ok (updated, st3)
        | (.ok none, _) => .error .conflict409
        | (.error _, _) => .error .conflict409
      | none => .error .conflict409

/-- Invariant: the (name, host, port) triple is unique across the live
service rows (the `unique_service_endpoint` constraint). -/
def Store.UniqueEndpoints (st : Store) : Prop :=
  st.services.Pairwise
    (fun a b => ¬ (a.name = b.name ∧ a.host = b.host ∧ a.port = b.port))

/-- Invariant: primary-key uniqueness of service ids. -/
def Store.UniqueIds (st : Store) : Prop :=
  st.services.Pairwise (fun a b => a.id ≠ b.id)

/-- Is this write an event-log insert? -/
def Write.isEventWrite : Write → Bool
  | .insertEvent _ => true
  | _ => false

/-! Concrete inputs used by the witness theorems. -/

/-- Concrete metadata blob for the witnesses. -/
def wMeta : ServiceMetadata :=
  { version := "1.0.0", environment := "dev", region := none,
    tags := [("team", "core")], capabilities := [] }

/-- Concrete registered service (status unknown, counter 0). -/
def wService : Service :=
  { id := 0, name := "svc-a", type := ServiceType.api, host := "h1", port := 8080,
    status := ServiceStatus.unknown, health_check_endpoint := none,
    health_check_failures := 0, last_health_check_at := none,
    service_metadata := some wMeta, registered_at := 1, last_seen_at := 1,
    updated_at := 1, version := 1 }

/-- Concrete one-service store. -/
def wStore : Store := { services := [wService], events := [], next_id := 1 }

/-- Concrete service sitting in the lifecycle status `stopped`. -/
def wStopped : Service :=
  { wService with id := 3, port := 9000, status := ServiceStatus.stopped,
                  health_check_failures := 7 }

/-- Concrete store holding only the stopped service. -/
def wStoppedStore : Store := { services := [wStopped], events := [], next_id := 4 }

/-- Concrete stale update: expects version 99 while the stored row has
version 1. -/
def wStaleFields : UpdateFields :=
  { status := some ServiceStatus.healthy, version := some 99 }

/-- Create arguments colliding with the witness store's service. -/
def wDupArgs : CreateArgs :=
  { name := "svc-a", type := ServiceType.worker, host := "h1", port := 8080,
    status := ServiceStatus.unknown, service_metadata := none,
    health_check_endpoint := none }

/-- Concrete re-registration body: same coordinates as the witness
service, bumped metadata version, new health-check endpoint. -/
def wReg : ServiceRegistration :=
  { name := "svc-a", type := ServiceType.worker, host := "h1", port := 8080,
    metadata := some { wMeta with version := "2.0.0" },
    health_check_endpoint := some "/health" }

/-- Empty store for the registration-race witness. -/
def wEmptyStore : Store := { services := [], events := [], next_id := 0 }

/-- The concurrent registration that wins the race in the witness. -/
def wRaceSvc : Service := { wService with id := 9 }

/-- Interference inserting the racing registration between the lookup
and the create. -/
def wRaceEnv (st : Store) : Store := { st with services := wRaceSvc :: st.services }

/-- Healthy discovery candidate, seen at time 3. -/
def wD1 : Service :=
  { wService with id := 11, status := ServiceStatus.healthy, last_seen_at := 3 }

/-- Healthy discovery candidate, seen at time 7. -/
def wD2 : Service :=
  { wService with id := 12, port := 81, status := ServiceStatus.healthy,
                  last_seen_at := 7 }

/-- Unhealthy instance that discovery must never return. -/
def wD3 : Service :=
  { wService with id := 13, port := 82, status := ServiceStatus.unhealthy,
                  last_seen_at := 9 }

/-- Store with two healthy instances and one unhealthy one. -/
def wDiscoverStore : Store :=
  { services := [wD1, wD2, wD3], events := [], next_id := 14 }

/-- Create arguments for the transaction-structure claims. -/
def w8Args : CreateArgs :=
  { name := "svc-b", type := ServiceType.api, host := "h2", port := 80,
    status := ServiceStatus.unknown, service_metadata := none,
    health_check_endpoint := none }

/-! Helper lemmas about the embedding. -/

/-- The `setattr` loop touches none of the identity, bookkeeping or
health-counter columns. -/
theorem applyFields_preserves (s : Service) (f : UpdateFields) :
    (s.applyFields f).id = s.id ∧ (s.applyFields f).registered_at = s.registered_at ∧
    (s.applyFields f).version = s.version ∧ (s.applyFields f).name = s.name ∧
    (s.applyFields f).host = s.host ∧ (s.applyFields f).port = s.port ∧
    (s.applyFields f).last_seen_at = s.last_seen_at ∧
    (s.applyFields f).health_check_failures = s.health_check_failures := by
  obtain ⟨ft, fm, fh, fs, fv⟩ := f
  unfold Service.applyFields
  cases ft <;> cases fm <;> cases fh <;> cases fs <;>
    exact ⟨rfl, rfl, rfl, rfl, rfl, rfl, rfl, rfl⟩

theorem getService_id {st : Store} {id : Nat} {s : Service}
    (h : st.getService id = some s) : s.id = id := by
  have := List.find?_some h
  simpa using this

theorem getService_mem {st : Store} {id : Nat} {s : Service}
    (h : st.getService id = some s) : s ∈ st.services :=
  List.mem_of_find?_eq_some h

theorem get_by_mem {st : Store} {name host : String} {port : Nat} {s : Service}
    (h : st.get_by_name_host_port name host port = some s) : s ∈ st.services :=
  List.mem_of_find?_eq_some h

theorem get_by_endpoint {st : Store} {name host : String} {port : Nat} {s : Service}
    (h : st.get_by_name_host_port name host port = some s) :
    s.name = name ∧ s.host = host ∧ s.port = port := by
  have := List.find?_some h
  simpa [Service.hasEndpoint] using this

theorem find?_map_replace (l : List Service) (id : Nat) (s s2 : Service)
    (hl : l.find? (fun t => t.id = id) = some s) (hid : s2.id = id) :
    (l.map (fun t => if t.id = id then s2 else t)).find? (fun t => t.id = id)
      = some s2 := by
  induction l with
  | nil => simp at hl
  | cons a l ih =>
    by_cases ha : a.id = id
    · simp [ha, hid]
    · rw [List.find?_cons_of_neg _ (by simpa using ha)] at hl
      simp only [List.map_cons, if_neg ha]
      rw [List.find?_cons_of_neg _ (by simpa using ha)]
      exact ih hl

theorem services_foldl_events (st : Store) (evs : List Write)
    (h : ∀ w ∈ evs, ∃ e, w = Write.insertEvent e) :
    (List.foldl Store.applyWrite st evs).services = st.services := by
  induction evs generalizing st with
  | nil => rfl
  | cons w ws ih =>
    obtain ⟨e, rfl⟩ := h w (List.mem_cons_self w ws)
    rw [List.foldl_cons]
    exact ih _ (fun w hw => h w (List.mem_cons_of_mem _ hw))

/-- Reading back the row a single update-transaction wrote: the trailing
event inserts do not touch the `services` table. -/
theorem getService_after_updateTxn (st : Store) (id : Nat) (s s2 : Service)
    (evs : List Write) (h : st.getService id = some s) (hid : s2.id = id)
    (hevs : ∀ w ∈ evs, ∃ e, w = Write.insertEvent e) :
    (st.applyTxns [Write.updateService id s2 :: evs]).getService id = some s2 := by
  unfold Store.applyTxns Store.applyTxn
  simp only [List.foldl_cons, List.foldl_nil]
  unfold Store.getService
  rw [services_foldl_events _ evs hevs]
  exact find?_map_replace st.services id s s2 h hid


/-- In a list with pairwise-distinct ids, `find?` by a member's id
returns exactly that member. -/
theorem find?_id_of_mem (l : List Service) (s : Service)
    (hU : l.Pairwise (fun a b => a.id ≠ b.id)) (hmem : s ∈ l) :
    l.find? (fun t => t.id = s.id) = some s := by
  induction l with
  | nil => simp at hmem
  | cons a l ih =>
    rcases List.mem_cons.mp hmem with rfl | hmem2
    · simp
    · have ha : a.id ≠ s.id := (List.pairwise_cons.mp hU).1 s hmem2
      rw [List.find?_cons_of_neg _ (by simpa using ha)]
      exact ih (List.pairwise_cons.mp hU).2 hmem2

/-- Under primary-key uniqueness, `get` by a stored row's id returns
that row. -/
theorem getService_of_mem {st : Store} {s : Service} (hU : st.UniqueIds)
    (hmem : s ∈ st.services) : st.getService s.id = some s :=
  find?_id_of_mem st.services s hU hmem

/-- Computation of `ServiceRepository.update` when the row exists and the
optimistic-lock check passes. -/
theorem update_eq (st : Store) (id : Nat) (s : Service) (f : UpdateFields) (now : Nat)
    (h : st.getService id = some s)
    (hv : f.version.any (fun expected_version => s.version != expected_version) = false) :
    st.update id f now = .ok (some
      ({ s.applyFields f with
           last_seen_at := now, updated_at := now,
           version := (s.applyFields f).version + 1 },
       [Write.updateService s.id
          { s.applyFields f with
              last_seen_at := now, updated_at := now,
              version := (s.applyFields f).version + 1 } ::
        (match f.status with
         | some new_status =>
           if s.status ≠ new_status then
             [Write.insertEvent
               { service_id := s.id
                 event_type := "status_change"
                 event_data := [("old_status", s.status.value),
                                ("new_status", new_status.value)] }]
           else []
         | none => [])])) := by
  simp only [Store.update, h, hv, Bool.false_eq_true, if_false]

/-- Event inserts are the only writes a `status_change` branch adds. -/
theorem statusEventWrites_are_events (c : Prop) [Decidable c] (e : ServiceEvent) :
    ∀ w ∈ (if c then [Write.insertEvent e] else []), ∃ e2, w = Write.insertEvent e2 := by
  split
  · intro w hw
    simp only [List.mem_singleton] at hw
    exact ⟨e, hw⟩
  · intro w hw
    simp at hw

/-- Characterization of a successful `update` together with its effect:
the returned service is the stored service with the fields applied,
`last_seen_at` and `updated_at` refreshed and `version` bumped, and a
subsequent read observes exactly that row. -/
theorem updateRun_found (st : Store) (id : Nat) (s : Service) (f : UpdateFields) (now : Nat)
    (h : st.getService id = some s)
    (hv : f.version.any (fun expected_version => s.version != expected_version) = false) :
    ∃ svc st2, st.updateRun id f now = (.ok (some svc), st2) ∧
      svc = { s.applyFields f with
                last_seen_at := now, updated_at := now,
                version := (s.applyFields f).version + 1 } ∧
      st2.getService id = some svc := by
  have hid : ({ s.applyFields f with
                  last_seen_at := now, updated_at := now,
                  version := (s.applyFields f).version + 1 } : Service).id = id := by
    show (s.applyFields f).id = id
    rw [(applyFields_preserves s f).1, getService_id h]
  refine ⟨{ s.applyFields f with
              last_seen_at := now, updated_at := now,
              version := (s.applyFields f).version + 1 },
          st.applyTxns [Write.updateService s.id
            { s.applyFields f with
                last_seen_at := now, updated_at := now,
                version := (s.applyFields f).version + 1 } ::
            (match f.status with
             | some new_status =>
               if s.status ≠ new_status then
                 [Write.insertEvent
                   { service_id := s.id
                     event_type := "status_change"
                     event_data := [("old_status", s.status.value),
                                    ("new_status", new_status.value)] }]
               else []
             | none => [])], ?_, rfl, ?_⟩
  · unfold Store.updateRun
    rw [update_eq st id s f now h hv]
  · rw [getService_id h]
    apply getService_after_updateTxn st id s _ _ h hid
    cases f.status with
    | some new_status => exact statusEventWrites_are_events _ _
    | none => intro w hw; simp at hw

/-- Computation of `update_health_status` on an existing row for a
healthy signal. -/
theorem update_health_status_true_eq (st : Store) (id : Nat) (s : Service) (now : Nat)
    (h : st.getService id = some s) :
    st.update_health_status id true none now = some
      ({ s with status := ServiceStatus.healthy, health_check_failures := 0,
                last_health_check_at := some now, last_seen_at := now,
                updated_at := now, version := s.version + 1 },
       [Write.updateService s.id
          { s with status := ServiceStatus.healthy, health_check_failures := 0,
                   last_health_check_at := some now, last_seen_at := now,
                   updated_at := now, version := s.version + 1 } ::
        (if s.status ≠ ServiceStatus.healthy then
           [Write.insertEvent
             { service_id := s.id
               event_type := "status_change"
               event_data := [("old_status", s.status.value),
                              ("new_status", ServiceStatus.healthy.value)] }]
         else [])]) := by
  simp [Store.update_health_status, h]

/-- Computation of `update_health_status` on an existing row for an
unhealthy signal. -/
theorem update_health_status_false_eq (st : Store) (id : Nat) (s : Service) (now : Nat)
    (h : st.getService id = some s) :
    st.update_health_status id false none now = some
      ({ s with health_check_failures := s.health_check_failures + 1,
                status := if s.health_check_failures + 1 ≥ 3 then
                    ServiceStatus.unhealthy else ServiceStatus.degraded,
                last_health_check_at := some now, last_seen_at := now,
                updated_at := now, version := s.version + 1 },
       [Write.updateService s.id
          { s with health_check_failures := s.health_check_failures + 1,
                   status := if s.health_check_failures + 1 ≥ 3 then
                       ServiceStatus.unhealthy else ServiceStatus.degraded,
                   last_health_check_at := some now, last_seen_at := now,
                   updated_at := now, version := s.version + 1 } ::
        (if s.status ≠ (if s.health_check_failures + 1 ≥ 3 then
              ServiceStatus.unhealthy else ServiceStatus.degraded) then
           [Write.insertEvent
             { service_id := s.id
               event_type := "status_change"
               event_data := [("old_status", s.status.value),
                              ("new_status",
                               (if s.health_check_failures + 1 ≥ 3 then
                                  ServiceStatus.unhealthy
                                else ServiceStatus.degraded).value)] }]
         else [])]) := by
  simp [Store.update_health_status, h]

/-- Characterization of `update_health_status` on an existing row,
together with its store effect: the transition rule applied, the version
bump, the `last_seen_at` refresh, and the read-back of the written row. -/
theorem healthRun_found (st : Store) (id : Nat) (s : Service) (b : Bool) (now : Nat)
    (h : st.getService id = some s) :
    ∃ svc st2, st.healthRun id b now = (some svc, st2) ∧
      svc.id = s.id ∧ svc.name = s.name ∧ svc.registered_at = s.registered_at ∧
      svc.status = (if b then ServiceStatus.healthy
        else if s.health_check_failures + 1 ≥ 3 then ServiceStatus.unhealthy
        else ServiceStatus.degraded) ∧
      svc.health_check_failures = (if b then 0 else s.health_check_failures + 1) ∧
      svc.version = s.version + 1 ∧ svc.last_seen_at = now ∧
      st2.getService id = some svc := by
  cases b with
  | true =>
    have hrun : st.healthRun id true now =
        (some { s with
                  status := ServiceStatus.healthy, health_check_failures := 0,
                  last_health_check_at := some now, last_seen_at := now,
                  updated_at := now, version := s.version + 1 },
         st.applyTxns [Write.updateService s.id
            { s with
                status := ServiceStatus.healthy, health_check_failures := 0,
                last_health_check_at := some now, last_seen_at := now,
                updated_at := now, version := s.version + 1 } ::
          (if s.status ≠ ServiceStatus.healthy then
             [Write.insertEvent
               { service_id := s.id
                 event_type := "status_change"
                 event_data := [("old_status", s.status.value),
                                ("new_status", ServiceStatus.healthy.value)] }]
           else [])]) := by
      unfold Store.healthRun
      rw [update_health_status_true_eq st id s now h]
    refine ⟨_, _, hrun, rfl, rfl, rfl, by simp, by simp, rfl, rfl, ?_⟩
    rw [getService_id h]
    refine getService_after_updateTxn st id s _ _ h ?_ ?_
    · rfl
    · exact statusEventWrites_are_events _ _
  | false =>
    have hrun : st.healthRun id false now =
        (some { s with
                  health_check_failures := s.health_check_failures + 1,
                  status := if s.health_check_failures + 1 >= 3 then
                      ServiceStatus.unhealthy else ServiceStatus.degraded,
                  last_health_check_at := some now, last_seen_at := now,
                  updated_at := now, version := s.version + 1 },
         st.applyTxns [Write.updateService s.id
            { s with
                health_check_failures := s.health_check_failures + 1,
                status := if s.health_check_failures + 1 >= 3 then
                    ServiceStatus.unhealthy else ServiceStatus.degraded,
                last_health_check_at := some now, last_seen_at := now,
                updated_at := now, version := s.version + 1 } ::
          (if s.status ≠ (if s.health_check_failures + 1 >= 3 then
                ServiceStatus.unhealthy else ServiceStatus.degraded) then
             [Write.insertEvent
               { service_id := s.id
                 event_type := "status_change"
                 event_data := [("old_status", s.status.value),
                                ("new_status",
                                 (if s.health_check_failures + 1 >= 3 then
                                    ServiceStatus.unhealthy
                                  else ServiceStatus.degraded).value)] }]
           else [])]) := by
      unfold Store.healthRun
      rw [update_health_status_false_eq st id s now h]
    refine ⟨_, _, hrun, rfl, rfl, rfl, by simp, by simp, rfl, rfl, ?_⟩
    rw [getService_id h]
    refine getService_after_updateTxn st id s _ _ h ?_ ?_
    · rfl
    · exact statusEventWrites_are_events _ _

/-! Claim theorems. -/

/-- Claim C1: health hysteresis.  For every existing service, a healthy
signal sets status healthy and resets the failure counter to 0; an
unhealthy signal increments the counter by 1 and sets status unhealthy
when the incremented counter is at least 3, else degraded.  Starting from
status unknown with counter 0, three consecutive unhealthy signals yield
degraded, degraded, unhealthy with the counter ending at exactly 3. -/
theorem C1_health_hysteresis (st : Store) (id : Nat) (s : Service)
    (now1 now2 now3 : Nat) (h : st.getService id = some s) :
    (∃ svc st2, st.healthRun id true now1 = (some svc, st2) ∧
       svc.status = ServiceStatus.healthy ∧ svc.health_check_failures = 0) ∧
    (∃ svc st2, st.healthRun id false now1 = (some svc, st2) ∧
       svc.health_check_failures = s.health_check_failures + 1 ∧
       svc.status = (if s.health_check_failures + 1 ≥ 3 then ServiceStatus.unhealthy
         else ServiceStatus.degraded)) ∧
    (s.status = ServiceStatus.unknown → s.health_check_failures = 0 →
      ∃ s1 st1 s2 st2 s3 st3,
        st.healthRun id false now1 = (some s1, st1) ∧
        s1.status = ServiceStatus.degraded ∧ s1.health_check_failures = 1 ∧
        st1.healthRun id false now2 = (some s2, st2) ∧
        s2.status = ServiceStatus.degraded ∧ s2.health_check_failures = 2 ∧
        st2.healthRun id false now3 = (some s3, st3) ∧
        s3.status = ServiceStatus.unhealthy ∧ s3.health_check_failures = 3) := by
  refine ⟨?_, ?_, ?_⟩
  · obtain ⟨svc, st2, hrun, _, _, _, hstat, hfail, _, _, _⟩ :=
      healthRun_found st id s true now1 h
    exact ⟨svc, st2, hrun, by simpa using hstat, by simpa using hfail⟩
  · obtain ⟨svc, st2, hrun, _, _, _, hstat, hfail, _, _, _⟩ :=
      healthRun_found st id s false now1 h
    exact ⟨svc, st2, hrun, by simpa using hfail, by simpa using hstat⟩
  · intro _ hfail0
    obtain ⟨s1, st1, hrun1, _, _, _, hstat1, hfail1, _, _, hget1⟩ :=
      healthRun_found st id s false now1 h
    simp [hfail0] at hstat1 hfail1
    obtain ⟨s2, st2, hrun2, _, _, _, hstat2, hfail2, _, _, hget2⟩ :=
      healthRun_found st1 id s1 false now2 hget1
    simp [hfail1] at hstat2 hfail2
    obtain ⟨s3, st3, hrun3, _, _, _, hstat3, hfail3, _, _, _⟩ :=
      healthRun_found st2 id s2 false now3 hget2
    simp [hfail2] at hstat3 hfail3
    exact ⟨s1, st1, s2, st2, s3, st3, hrun1, hstat1, hfail1, hrun2, hstat2,
           hfail2, hrun3, hstat3, hfail3⟩

/-- Witness for C1: on the concrete store, the three-step condemnation
scenario holds as the theorem states. -/
theorem C1_health_hysteresis_witness :
    wStore.getService 0 = some wService ∧
    wService.status = ServiceStatus.unknown ∧ wService.health_check_failures = 0 ∧
    (∃ s1 st1 s2 st2 s3 st3,
      wStore.healthRun 0 false 2 = (some s1, st1) ∧
      s1.status = ServiceStatus.degraded ∧ s1.health_check_failures = 1 ∧
      st1.healthRun 0 false 3 = (some s2, st2) ∧
      s2.status = ServiceStatus.degraded ∧ s2.health_check_failures = 2 ∧
      st2.healthRun 0 false 4 = (some s3, st3) ∧
      s3.status = ServiceStatus.unhealthy ∧ s3.health_check_failures = 3) :=
  ⟨rfl, rfl, rfl, (C1_health_hysteresis wStore 0 wService 2 3 4 rfl).2.2 rfl rfl⟩

/-- Claim C9 (implicit): the health state machine has no transition
guards on lifecycle states — from any current status, a healthy signal
yields status healthy with counter 0, and an unhealthy signal yields
degraded or unhealthy. -/
theorem C9_no_lifecycle_guards (st : Store) (id : Nat) (s : Service) (now : Nat)
    (h : st.getService id = some s) :
    (∃ svc st2, st.healthRun id true now = (some svc, st2) ∧
       svc.status = ServiceStatus.healthy ∧ svc.health_check_failures = 0) ∧
    (∃ svc st2, st.healthRun id false now = (some svc, st2) ∧
       (svc.status = ServiceStatus.degraded ∨
        svc.status = ServiceStatus.unhealthy)) := by
  refine ⟨?_, ?_⟩
  · obtain ⟨svc, st2, hrun, _, _, _, hstat, hfail, _, _, _⟩ :=
      healthRun_found st id s true now h
    exact ⟨svc, st2, hrun, by simpa using hstat, by simpa using hfail⟩
  · obtain ⟨svc, st2, hrun, _, _, _, hstat, _, _, _, _⟩ :=
      healthRun_found st id s false now h
    refine ⟨svc, st2, hrun, ?_⟩
    simp only [Bool.false_eq_true, if_false] at hstat
    split at hstat
    · exact Or.inr hstat
    · exact Or.inl hstat

/-- Witness for C9: a service whose status is the lifecycle state
`stopped` still transitions on both signals. -/
theorem C9_no_lifecycle_guards_witness :
    wStoppedStore.getService 3 = some wStopped ∧
    wStopped.status = ServiceStatus.stopped ∧
    ((∃ svc st2, wStoppedStore.healthRun 3 true 5 = (some svc, st2) ∧
        svc.status = ServiceStatus.healthy ∧ svc.health_check_failures = 0) ∧
     (∃ svc st2, wStoppedStore.healthRun 3 false 5 = (some svc, st2) ∧
        (svc.status = ServiceStatus.degraded ∨
         svc.status = ServiceStatus.unhealthy))) :=
  ⟨rfl, rfl, C9_no_lifecycle_guards wStoppedStore 3 wStopped 5 rfl⟩


/-- Claim C3: optimistic lock rejection.  For every existing service, an
update supplying an `expected_version` different from the stored version
fails with `ConflictError` and leaves the whole store — every stored
field, version and `last_seen_at` included — unchanged. -/
theorem C3_optimistic_lock (st : Store) (id : Nat) (s : Service) (f : UpdateFields)
    (ev : Nat) (now : Nat) (h : st.getService id = some s)
    (hv : f.version = some ev) (hne : s.version ≠ ev) :
    st.updateRun id f now = (.error RepoError.conflict, st) := by
  have hcond : f.version.any (fun expected_version => s.version != expected_version)
      = true := by
    rw [hv]
    simpa using hne
  simp only [Store.updateRun, Store.update, h, hcond, if_true]

/-- Witness for C3: the stale update on the concrete store is rejected
with the store intact. -/
theorem C3_optimistic_lock_witness :
    wStore.getService 0 = some wService ∧ wStaleFields.version = some 99 ∧
    wService.version ≠ 99 ∧
    wStore.updateRun 0 wStaleFields 5 = (.error RepoError.conflict, wStore) :=
  ⟨rfl, rfl, by decide,
   C3_optimistic_lock wStore 0 wService wStaleFields 99 5 rfl rfl (by decide)⟩

/-- Claim C4: version monotonicity.  Every successful `update` and every
successful `update_health_status` on an existing service increments its
stored version by exactly 1 and refreshes `last_seen_at`, and a
subsequent read observes exactly the written row, so versions observed
across successive successful updates strictly increase. -/
theorem C4_version_monotonic (st : Store) (id : Nat) (s : Service) (f : UpdateFields)
    (b : Bool) (now : Nat) (h : st.getService id = some s) :
    (∀ svc st2, st.updateRun id f now = (.ok (some svc), st2) →
       svc.version = s.version + 1 ∧ svc.last_seen_at = now ∧
       st2.getService id = some svc) ∧
    (∀ svc st2, st.healthRun id b now = (some svc, st2) →
       svc.version = s.version + 1 ∧ svc.last_seen_at = now ∧
       st2.getService id = some svc) := by
  constructor
  · intro svc st2 heq
    by_cases hc : f.version.any (fun expected_version => s.version != expected_version)
        = true
    · have hrej : st.updateRun id f now = (.error RepoError.conflict, st) := by
        simp only [Store.updateRun, Store.update, h, hc, if_true]
      rw [hrej] at heq
      simp at heq
    · obtain ⟨svc2, st3, hrun, hsvc, hget⟩ :=
        updateRun_found st id s f now h (by simpa using hc)
      rw [hrun] at heq
      obtain ⟨heq1, heq2⟩ := Prod.mk.injEq .. ▸ heq
      have hsvc2 : svc2 = svc := by
        simpa using heq1
      subst hsvc2
      subst heq2
      refine ⟨?_, ?_, hget⟩
      · rw [hsvc]
        show (s.applyFields f).version + 1 = s.version + 1
        rw [(applyFields_preserves s f).2.2.1]
      · rw [hsvc]
  · intro svc st2 heq
    obtain ⟨svc2, st3, hrun, _, _, _, _, _, hver, hseen, hget⟩ :=
      healthRun_found st id s b now h
    rw [hrun] at heq
    obtain ⟨heq1, heq2⟩ := Prod.mk.injEq .. ▸ heq
    have hsvc2 : svc2 = svc := by
      simpa using heq1
    subst hsvc2
    subst heq2
    exact ⟨hver, hseen, hget⟩

/-- Witness for C4: a successful health update on the concrete store
bumps the version from 1 to 2 and refreshes `last_seen_at`. -/
theorem C4_version_monotonic_witness :
    wStore.getService 0 = some wService ∧
    ∃ svc st2, wStore.healthRun 0 true 5 = (some svc, st2) ∧
      svc.version = wService.version + 1 ∧ svc.last_seen_at = 5 ∧
      st2.getService 0 = some svc := by
  refine ⟨rfl, ?_⟩
  have hrun : ∃ svc st2, wStore.healthRun 0 true 5 = (some svc, st2) := ⟨_, _, rfl⟩
  obtain ⟨svc, st2, hrun⟩ := hrun
  exact ⟨svc, st2, hrun,
    (C4_version_monotonic wStore 0 wService
      { type := none, service_metadata := none, health_check_endpoint := none,
        status := none, version := none } true 5 rfl).2 svc st2 hrun⟩


/-- Claim C2: uniqueness of the (name, host, port) triple.  `create`
fails with `ConflictError` whenever a service with the same triple
already exists and in that case adds no record (the store is unchanged);
and a `create` never breaks the uniqueness invariant over live rows. -/
theorem C2_uniqueness (st : Store) (a : CreateArgs) (now : Nat) :
    ((∃ s ∈ st.services, s.hasEndpoint a.name a.host a.port = true) →
       st.createRun a now = (.error RepoError.conflict, st)) ∧
    (st.UniqueEndpoints → Store.UniqueEndpoints (st.createRun a now).2) := by
  constructor
  · rintro ⟨s, hmem, hep⟩
    have hany : st.services.any (fun s => s.hasEndpoint a.name a.host a.port) = true :=
      List.any_eq_true.mpr ⟨s, hmem, hep⟩
    simp only [Store.createRun, Store.create, hany, if_true]
  · intro hU
    by_cases hany :
        st.services.any (fun s => s.hasEndpoint a.name a.host a.port) = true
    · simp only [Store.createRun, Store.create, hany, if_true]
      exact hU
    · have hany2 : st.services.any (fun s => s.hasEndpoint a.name a.host a.port)
          = false := by simpa using hany
      simp only [Store.createRun, Store.create, hany2, Bool.false_eq_true, if_false]
      show List.Pairwise _ (st.services ++ [_])
      rw [List.pairwise_append]
      refine ⟨hU, List.pairwise_singleton _ _, ?_⟩
      intro x hx y hy
      rw [List.mem_singleton] at hy
      subst hy
      intro hcontra
      have hxep : x.hasEndpoint a.name a.host a.port = true := by
        simp only [Service.hasEndpoint]
        exact decide_eq_true hcontra
      have : st.services.any (fun s => s.hasEndpoint a.name a.host a.port) = true :=
        List.any_eq_true.mpr ⟨x, hx, hxep⟩
      rw [this] at hany2
      exact Bool.true_eq_false.mp hany2

/-- Witness for C2: creating a second "svc-a"@h1:8080 on the concrete
store is rejected and leaves the store unchanged. -/
theorem C2_uniqueness_witness :
    wStore.createRun wDupArgs 5 = (.error RepoError.conflict, wStore) :=
  (C2_uniqueness wStore wDupArgs 5).1 ⟨wService, by decide, by decide⟩

/-- Claim C10 (implicit): a tag filter that parses to an empty key or an
empty value is silently ignored — the list result equals the result of
the same call with no tag filter at all. -/
theorem C10_empty_tag_ignored (st : Store) (ty : Option ServiceType)
    (stat : Option ServiceStatus) (tag : Option String) (k v : String)
    (hp : parseTagFilter tag = .ok (some k, some v)) (hkv : k = "" ∨ v = "") :
    list_services st ty stat tag = list_services st ty stat none := by
  have hfalse : (truthyStr (some k) && truthyStr (some v)) = false := by
    rcases hkv with rfl | rfl
    · simp [truthyStr]
    · simp [truthyStr]
  unfold list_services
  rw [hp]
  show Except.ok (st.list _) = _
  unfold parseTagFilter
  show _ = Except.ok (st.list _)
  unfold Store.list
  rw [hfalse]
  rfl

/-- Witness for C10: the query string "team=" parses to an empty tag
value and the filter is dropped. -/
theorem C10_empty_tag_ignored_witness :
    parseTagFilter (some "team=") = .ok (some "team", some "") ∧
    list_services wStore none none (some "team=") =
      list_services wStore none none none :=
  ⟨rfl,
   C10_empty_tag_ignored wStore none none (some "team=") "team" ""
     rfl (Or.inr rfl)⟩


/-- The discover route returns exactly the `find_by_name` result: the
empty-guard branch returns the same empty list. -/
theorem discover_services_eq (st : Store) (n : String) (stat : ServiceStatus) :
    discover_services st n stat = st.find_by_name n (some stat) true := by
  show (if (st.find_by_name n (some stat) true).isEmpty then []
        else st.find_by_name n (some stat) true) = _
  split
  · next hempty => exact (List.isEmpty_iff.mp hempty).symm
  · rfl

/-- Claim C5: re-registration is an update, not a create.  When the
registration's (name, host, port) triple matches an existing service,
the route returns a service with the same id and `registered_at`, status
reset to unknown, the type, metadata and health-check endpoint replaced
by the new values, and `last_seen_at` strictly greater than before. -/
theorem C5_reregistration (st : Store) (reg : ServiceRegistration) (ex : Service)
    (now : Nat) (hU : st.UniqueIds)
    (h : st.get_by_name_host_port reg.name reg.host reg.port = some ex)
    (ht : ex.last_seen_at < now) :
    ∃ svc st2, register_service st reg now = .ok (svc, st2) ∧
      svc.id = ex.id ∧ svc.registered_at = ex.registered_at ∧
      svc.status = ServiceStatus.unknown ∧ svc.type = reg.type ∧
      svc.service_metadata = reg.metadata ∧
      svc.health_check_endpoint = reg.health_check_endpoint ∧
      ex.last_seen_at < svc.last_seen_at := by
  have hget : st.getService ex.id = some ex := getService_of_mem hU (get_by_mem h)
  obtain ⟨svc, st2, hrun, hsvc, _⟩ :=
    updateRun_found st ex.id ex (registrationUpdateFields reg) now hget rfl
  refine ⟨svc, st2, ?_, ?_, ?_, ?_, ?_, ?_, ?_, ?_⟩
  · simp only [register_service, h, hrun]
  · rw [hsvc]
    show (ex.applyFields (registrationUpdateFields reg)).id = ex.id
    exact (applyFields_preserves ex (registrationUpdateFields reg)).1
  · rw [hsvc]
    show (ex.applyFields (registrationUpdateFields reg)).registered_at
        = ex.registered_at
    exact (applyFields_preserves ex (registrationUpdateFields reg)).2.1
  · rw [hsvc]
    rfl
  · rw [hsvc]
    rfl
  · rw [hsvc]
    rfl
  · rw [hsvc]
    rfl
  · rw [hsvc]
    exact ht

/-- Witness for C5: re-registering "svc-a"@h1:8080 with new metadata
updates the existing record in place. -/
theorem C5_reregistration_witness :
    wStore.UniqueIds ∧
    wStore.get_by_name_host_port "svc-a" "h1" 8080 = some wService ∧
    wService.last_seen_at < 7 ∧
    (∃ svc st2, register_service wStore wReg 7 = .ok (svc, st2) ∧
      svc.id = wService.id ∧ svc.registered_at = wService.registered_at ∧
      svc.status = ServiceStatus.unknown ∧ svc.type = wReg.type ∧
      svc.service_metadata = wReg.metadata ∧
      svc.health_check_endpoint = wReg.health_check_endpoint ∧
      wService.last_seen_at < svc.last_seen_at) :=
  ⟨by simp [Store.UniqueIds, wStore], rfl, by decide,
   C5_reregistration wStore wReg wService 7 (by simp [Store.UniqueIds, wStore])
     rfl (by decide)⟩

/-- Claim C6: registration race recovery.  When the coordinate lookup
finds nothing and the subsequent create fails with `ConflictError`, the
route re-queries by coordinates; if a record is now found it resolves to
the update path returning that record, and only if the re-query also
finds nothing does it surface a 409 conflict. -/
theorem C6_race_recovery (st : Store) (reg : ServiceRegistration)
    (env1 env2 : Store → Store) (now : Nat)
    (h0 : st.get_by_name_host_port reg.name reg.host reg.port = none)
    (hc : (env1 st).create (registrationCreateArgs reg) now
        = .error RepoError.conflict) :
    (∀ ex, (env2 (env1 st)).get_by_name_host_port reg.name reg.host reg.port
        = some ex →
       ∃ svc st3, register_service_race st reg env1 env2 now = .ok (svc, st3) ∧
         svc.id = ex.id ∧ svc.status = ServiceStatus.unknown) ∧
    ((env2 (env1 st)).get_by_name_host_port reg.name reg.host reg.port = none →
       register_service_race st reg env1 env2 now = .error RouteError.conflict409) := by
  have hcr : (env1 st).createRun (registrationCreateArgs reg) now
      = (.error RepoError.conflict, env1 st) := by
    unfold Store.createRun
    rw [hc]
  constructor
  · intro ex hex
    have hsome : ((env2 (env1 st)).getService ex.id).isSome := by
      unfold Store.getService
      rw [List.find?_isSome]
      exact ⟨ex, get_by_mem hex, by simp⟩
    obtain ⟨s2, hs2⟩ := Option.isSome_iff_exists.mp hsome
    have hid2 : s2.id = ex.id := getService_id hs2
    obtain ⟨svc, st3, hrun, hsvc, _⟩ :=
      updateRun_found _ ex.id s2 (registrationUpdateFields reg) now hs2 rfl
    refine ⟨svc, st3, ?_, ?_, ?_⟩
    · simp only [register_service_race, h0, hcr, hex, hrun]
    · rw [hsvc]
      show (s2.applyFields (registrationUpdateFields reg)).id = ex.id
      rw [(applyFields_preserves s2 (registrationUpdateFields reg)).1, hid2]
    · rw [hsvc]
      rfl
  · intro hex
    simp only [register_service_race, h0, hcr, hex]

/-- Witness for C6: the looked-up store is empty, a concurrent insert
makes the create conflict, and the route recovers by updating the racing
record. -/
theorem C6_race_recovery_witness :
    wEmptyStore.get_by_name_host_port "svc-a" "h1" 8080 = none ∧
    (wRaceEnv wEmptyStore).create (registrationCreateArgs wReg) 7
      = .error RepoError.conflict ∧
    (wRaceEnv wEmptyStore).get_by_name_host_port "svc-a" "h1" 8080 = some wRaceSvc ∧
    (∃ svc st3,
      register_service_race wEmptyStore wReg wRaceEnv (fun s => s) 7
        = .ok (svc, st3) ∧
      svc.id = wRaceSvc.id ∧ svc.status = ServiceStatus.unknown) :=
  ⟨rfl, rfl, rfl,
   (C6_race_recovery wEmptyStore wReg wRaceEnv (fun s => s) 7 rfl
      rfl).1 wRaceSvc rfl⟩


/-- Claim C7: discovery filtering and ordering.  With the default
minimum status healthy, `discover(name)` returns only services whose
name matches and whose status equals healthy exactly (so an unhealthy
service is never returned), ordered most-recently-seen first, and an
empty sequence — never an error — when nothing matches. -/
theorem C7_discovery (st : Store) (name : String) :
    (∀ s ∈ discover_services st name ServiceStatus.healthy,
       s.name = name ∧ s.status = ServiceStatus.healthy) ∧
    (discover_services st name ServiceStatus.healthy).Pairwise
      (fun a b => b.last_seen_at ≤ a.last_seen_at) ∧
    ((∀ s ∈ st.services, ¬ (s.name = name ∧ s.status = ServiceStatus.healthy)) →
       discover_services st name ServiceStatus.healthy = []) := by
  have heq : discover_services st name ServiceStatus.healthy =
      ((st.services.filter (fun s => s.name == name)).filter
        (fun s => s.status == ServiceStatus.healthy)).mergeSort
        (fun a b => decide (b.last_seen_at ≤ a.last_seen_at)) := by
    rw [discover_services_eq]
    rfl
  refine ⟨?_, ?_, ?_⟩
  · intro s hs
    rw [heq, List.mem_mergeSort, List.mem_filter] at hs
    obtain ⟨hs1, hs2⟩ := hs
    rw [List.mem_filter] at hs1
    exact ⟨by simpa using hs1.2, by simpa using hs2⟩
  · rw [heq]
    have hsorted : (((st.services.filter (fun s => s.name == name)).filter
        (fun s => s.status == ServiceStatus.healthy)).mergeSort
        (fun a b => decide (b.last_seen_at ≤ a.last_seen_at))).Pairwise
        (fun a b => decide (b.last_seen_at ≤ a.last_seen_at) = true) :=
      List.sorted_mergeSort
        (fun a b c hab hbc => by
          simp only [decide_eq_true_eq] at hab hbc ⊢
          omega)
        (fun a b => by
          simp only [Bool.or_eq_true, decide_eq_true_eq]
          omega)
        _
    exact hsorted.imp (fun hab => by simpa using hab)
  · intro hnone
    rw [heq]
    have hnil : (st.services.filter (fun s => s.name == name)).filter
        (fun s => s.status == ServiceStatus.healthy) = [] := by
      rw [List.filter_eq_nil_iff]
      intro a ha
      rw [List.mem_filter] at ha
      intro hstat
      exact hnone a ha.1 ⟨by simpa using ha.2, by simpa using hstat⟩
    rw [hnil, List.mergeSort_nil]

/-- Witness for C7: on the concrete store the healthy instances come
back newest-first and the unhealthy one is absent; an unknown name gives
the empty list. -/
theorem C7_discovery_witness :
    (∀ s ∈ discover_services wDiscoverStore "svc-a" ServiceStatus.healthy,
       s.name = "svc-a" ∧ s.status = ServiceStatus.healthy) ∧
    (discover_services wDiscoverStore "svc-a" ServiceStatus.healthy).Pairwise
      (fun a b => b.last_seen_at ≤ a.last_seen_at) ∧
    discover_services wDiscoverStore "missing" ServiceStatus.healthy = [] :=
  ⟨(C7_discovery wDiscoverStore "svc-a").1,
   (C7_discovery wDiscoverStore "svc-a").2.1,
   (C7_discovery wDiscoverStore "missing").2.2 (by decide)⟩

/-- Counterexample to C8 as stated: on a concrete store a successful
`create` commits TWO transactions — the second holds only the
`service_registered` event write, so the service-record insert is
committed in a separate transaction from its associated event write. -/
theorem C8_atomicity_counterexample :
    (wEmptyStore.create w8Args 0).map (fun p => p.2.length) = .ok 2 ∧
    (wEmptyStore.create w8Args 0).map
        (fun p => p.2.map (fun t => t.map Write.isEventWrite))
      = .ok [[false], [true]] :=
  ⟨rfl, rfl⟩

/-- Claim C8 amended: `update`, `delete` and `update_health_status` each
commit their record mutation together with any associated event write in
one single transaction; `create`, however, commits the service insert in
a first transaction and its registration event separately in a second,
best-effort transaction holding only event writes. -/
theorem C8_amended_atomicity (st : Store) (id : Nat) (f : UpdateFields)
    (b : Bool) (now : Nat) (a : CreateArgs) :
    (∀ svc ts, st.update id f now = .ok (some (svc, ts)) → ∃ t, ts = [t]) ∧
    (∀ ts, st.delete id = (true, ts) → ∃ t, ts = [t]) ∧
    (∀ svc ts, st.update_health_status id b none now = some (svc, ts) →
       ∃ t, ts = [t]) ∧
    (∀ svc ts, st.create a now = .ok (svc, ts) →
       ts.length = 2 ∧ (ts.getD 0 []).all (fun w => !w.isEventWrite) = true ∧
       (ts.getD 1 []).all Write.isEventWrite = true) := by
  refine ⟨?_, ?_, ?_, ?_⟩
  · intro svc ts heq
    cases hg : st.getService id with
    | none =>
      simp only [Store.update, hg] at heq
      simp at heq
    | some s =>
      simp only [Store.update, hg] at heq
      split at heq
      · simp at heq
      · simp only [Except.ok.injEq, Option.some.injEq, Prod.mk.injEq] at heq
        exact ⟨_, heq.2.symm⟩
  · intro ts heq
    cases hg : st.getService id with
    | none =>
      simp only [Store.delete, hg, Prod.mk.injEq] at heq
      exact absurd heq.1 (by simp)
    | some s =>
      simp only [Store.delete, hg, Prod.mk.injEq] at heq
      exact ⟨_, heq.2.symm⟩
  · intro svc ts heq
    cases hg : st.getService id with
    | none =>
      simp only [Store.update_health_status, hg] at heq
      simp at heq
    | some s =>
      simp only [Store.update_health_status, hg, Option.some.injEq,
                 Prod.mk.injEq] at heq
      exact ⟨_, heq.2.symm⟩
  · intro svc ts heq
    simp only [Store.create] at heq
    split at heq
    · simp at heq
    · simp only [Except.ok.injEq, Prod.mk.injEq] at heq
      obtain ⟨-, hts⟩ := heq
      subst hts
      exact ⟨rfl, rfl, rfl⟩

/-- Witness for the amended C8: a concrete health update commits exactly
one transaction, a concrete create commits two. -/
theorem C8_amended_atomicity_witness :
    (∃ svc t, wStore.update_health_status 0 true none 5 = some (svc, [t])) ∧
    (∃ svc ts, wStore.create w8Args 5 = .ok (svc, ts) ∧ ts.length = 2) := by
  constructor
  · have hex : ∃ svc ts, wStore.update_health_status 0 true none 5
        = some (svc, ts) := ⟨_, _, rfl⟩
    obtain ⟨svc, ts, heq⟩ := hex
    obtain ⟨t, rfl⟩ :=
      (C8_amended_atomicity wStore 0 {} true 5 w8Args).2.2.1 svc ts heq
    exact ⟨svc, t, heq⟩
  · have hex : ∃ svc ts, wStore.create w8Args 5 = .ok (svc, ts) := ⟨_, _, rfl⟩
    obtain ⟨svc, ts, heq⟩ := hex
    exact ⟨svc, ts, heq,
      ((C8_amended_atomicity wStore 0 {} true 5 w8Args).2.2.2 svc ts heq).1⟩

end PlatformCoordination
